import Mathlib

/-!
Shallow embedding of the PiSP Back End scheduler core
(drivers/media/platform/raspberrypi/pisp_be/pisp_be.c).

The driver's scheduling state (job slots, busy flag, shadow counters), the
admission logic (`pispbe_schedule_internal`), the scheduler entry points
(`pispbe_schedule_one`, `pispbe_schedule_any`), the interrupt reconciliation
(`pispbe_isr`, `pispbe_isr_jobdone`), the enable sanitizer
(`fixup_addrs_enables`, `get_addr_3`, `get_addr`) and the register dispatch
(`hw_queue_job`) are translated here as pure functions.  Machine integers are
`Nat` with explicit `% 2^w` where overflow matters; the MMIO write stream of
`hw_queue_job` is modelled as a list of (offset, value) pairs, and hardware
register reads during the read-back phase are an explicit oracle
`rd : Nat → Nat`.
-/

namespace PispBE

/-! ### Constants from pisp_be.c -/

def PISPBE_NUM_NODE_GROUPS : Nat := 2

/-- Node ids, in the order of `enum node_ids`. -/
def MAIN_INPUT_NODE : Nat := 0

def TDN_INPUT_NODE : Nat := 1

def STITCH_INPUT_NODE : Nat := 2

def HOG_OUTPUT_NODE : Nat := 3

def OUTPUT0_NODE : Nat := 4

def OUTPUT1_NODE : Nat := 5

def TDN_OUTPUT_NODE : Nat := 6

def STITCH_OUTPUT_NODE : Nat := 7

def CONFIG_NODE : Nat := 8

def PISPBE_NUM_NODES : Nat := 9

def N_HW_ADDRESSES : Nat := 14

def PISP_BE_CONTROL_OFFSET : Nat := 0x4

def PISP_BE_TILE_ADDR_LO_OFFSET : Nat := 0x8

def PISP_BE_TILE_ADDR_HI_OFFSET : Nat := 0xc

def PISP_BE_CONFIG_BASE_OFFSET : Nat := 0x40

def PISP_BE_IO_INPUT_ADDR0_LO_OFFSET : Nat := PISP_BE_CONFIG_BASE_OFFSET

def PISP_BE_GLOBAL_BAYER_ENABLE_OFFSET : Nat := PISP_BE_CONFIG_BASE_OFFSET + 0x70

def PISP_BE_GLOBAL_RGB_ENABLE_OFFSET : Nat := PISP_BE_CONFIG_BASE_OFFSET + 0x74

/-- Modelled from the spec: the per-feature enable bit constants come from the
uAPI header `pisp_be_config.h`, which is not part of the scheduler sources
here; the register-level contract only requires them to be distinct bits of
the two 32-bit enable bitmask registers.  Values follow the hardware ABI. -/
def PISP_BE_BAYER_ENABLE_INPUT : Nat := 0x000001

def PISP_BE_BAYER_ENABLE_TDN_INPUT : Nat := 0x000010

def PISP_BE_BAYER_ENABLE_TDN_DECOMPRESS : Nat := 0x000020

def PISP_BE_BAYER_ENABLE_TDN : Nat := 0x000040

def PISP_BE_BAYER_ENABLE_TDN_COMPRESS : Nat := 0x000080

def PISP_BE_BAYER_ENABLE_TDN_OUTPUT : Nat := 0x000100

def PISP_BE_BAYER_ENABLE_STITCH_INPUT : Nat := 0x000800

def PISP_BE_BAYER_ENABLE_STITCH_DECOMPRESS : Nat := 0x001000

def PISP_BE_BAYER_ENABLE_STITCH : Nat := 0x002000

def PISP_BE_BAYER_ENABLE_STITCH_COMPRESS : Nat := 0x004000

def PISP_BE_BAYER_ENABLE_STITCH_OUTPUT : Nat := 0x008000

def PISP_BE_RGB_ENABLE_OUTPUT0 : Nat := 0x040000

def PISP_BE_RGB_ENABLE_OUTPUT1 : Nat := 0x080000

def PISP_BE_RGB_ENABLE_HOG : Nat := 0x200000

/-- Modelled from the spec: the tile-count cap `PISP_BACK_END_NUM_TILES` is
defined in the missing uAPI header; the claims only need it to be a fixed
positive bound on the tile count. -/
def PISP_BACK_END_NUM_TILES : Nat := 512

/-- Clear the bits of `m` in `x` (C's `x &= ~m` on unsigned values). -/
def clearBits (x m : Nat) : Nat := x - (x &&& m)

/-! ### Data model -/

/-- The fields of the per-job configuration buffer
(`struct pisp_be_tiles_config`) that the scheduler reads:
`config.global.bayer_enables`, `config.global.rgb_enables`, `num_tiles`
and the low bit of `config.tdn.reset` (`tdn_reset` models `tdn.reset & 1`). -/
structure BeConfig where
  bayer_enables : Nat
  rgb_enables : Nat
  num_tiles : Int
  tdn_reset : Bool
deriving DecidableEq, Repr

instance : Inhabited BeConfig := ⟨⟨0, 0, 0, false⟩⟩

/-- One node group (`struct pispbe_node_group`): the streaming bitmap, the
nine per-node ready FIFOs (buffers are identified by their vb2 index), the
group's internal config-buffer array, and the completed-frame sequence
counter. -/
structure PispbeNodeGroup where
  streaming_map : Nat
  ready_queue : List (List Nat)
  configs : List BeConfig
  sequence : Nat
deriving DecidableEq, Repr

instance : Inhabited PispbeNodeGroup := ⟨⟨0, List.replicate 9 [], [], 0⟩⟩

/-- A job slot (`struct pispbe_job`): owning group (none = slot empty, the C
code's null `node_group` pointer) and one optional buffer per node. -/
structure PispbeJob where
  node_group : Option Nat
  buf : List (Option Nat)
deriving DecidableEq, Repr

/-- The all-zero job produced by `memset(&job, 0, sizeof(job))`. -/
def emptyJob : PispbeJob := ⟨none, List.replicate 9 none⟩

/-- The device state (`struct pispbe_dev`) as seen by the scheduler: node
groups, busy flag, the two job slots, and the two shadow 8-bit counters.
`completed` is the observation log of `vb2_buffer_done` calls: one
(group, buffer, stamped sequence) triple per completed buffer, in call
order. -/
structure PispbeDev where
  node_group : List PispbeNodeGroup
  hw_busy : Bool
  queued_job : PispbeJob
  running_job : PispbeJob
  done : Nat
  started : Nat
  completed : List (Nat × Nat × Nat)
deriving DecidableEq, Repr

/-! ### Admission (pispbe_schedule_internal) -/

/-- The `ignore_buffers` predicate of the admission loop: true when node `i`
is one of the six conditional nodes and its feature enable bit is unset in
the config's enable bitmaps. -/
def pispbe_ignore_buffers (config : BeConfig) (i : Nat) : Bool :=
  (config.rgb_enables &&& PISP_BE_RGB_ENABLE_OUTPUT0 == 0 && i == OUTPUT0_NODE) ||
  (config.rgb_enables &&& PISP_BE_RGB_ENABLE_OUTPUT1 == 0 && i == OUTPUT1_NODE) ||
  (config.bayer_enables &&& PISP_BE_BAYER_ENABLE_TDN_INPUT == 0 && i == TDN_INPUT_NODE) ||
  (config.bayer_enables &&& PISP_BE_BAYER_ENABLE_TDN_OUTPUT == 0 && i == TDN_OUTPUT_NODE) ||
  (config.bayer_enables &&& PISP_BE_BAYER_ENABLE_STITCH_INPUT == 0 && i == STITCH_INPUT_NODE) ||
  (config.bayer_enables &&& PISP_BE_BAYER_ENABLE_STITCH_OUTPUT == 0 && i == STITCH_OUTPUT_NODE)

/-- What the admission loop records in `buf[i]` for node `i`, when it does
not abort there: the config buffer for the config node, nothing for a
non-streaming node, else the front of the ready FIFO; `none` (abort) exactly
when a streaming node's FIFO is empty and its buffer is required. -/
def collectEntry (ng : PispbeNodeGroup) (config : BeConfig) (cfgIdx : Nat)
    (i : Nat) : Option (Option Nat) :=
  if i = CONFIG_NODE then some (some cfgIdx)
  else if ng.streaming_map &&& (1 <<< i) = 0 then some none
  else
    match (ng.ready_queue.getD i []).head? with
    | some b => some (some b)
    | none => if pispbe_ignore_buffers config i then some none else none

/-- Phase 1 of admission: peek a buffer for every node in `l`, aborting
(without having removed anything) if any required buffer is missing. -/
def pispbe_collect (ng : PispbeNodeGroup) (config : BeConfig) (cfgIdx : Nat) :
    List Nat → Option (List (Option Nat))
  | [] => some []
  | i :: rest =>
    match collectEntry ng config cfgIdx i, pispbe_collect ng config cfgIdx rest with
    | some h, some t => some (h :: t)
    | _, _ => none

/-- The node ids `0..8` scanned by the admission loop. -/
def nodeIds : List Nat := [0, 1, 2, 3, 4, 5, 6, 7, 8]

/-- Phase 2 of admission: remove the front buffer of every FIFO that
contributed a buffer to the job. -/
def commitReady (qs : List (List Nat)) (bufs : List (Option Nat)) :
    List (List Nat) :=
  List.zipWith (fun q b => if b.isSome then q.tail else q) qs bufs

/-- `pispbe_schedule_internal`: all-or-nothing admission for one node group.
Returns the new device state and whether a job was queued (the C function's
non-zero return).  All failure paths return the state unchanged; on success
the contributing FIFO fronts are removed, the job fills the queued slot, and
the busy flag is set. -/
def pispbe_schedule_internal (pispbe : PispbeDev) (g : Nat) : PispbeDev × Bool :=
  let ng := pispbe.node_group.getD g default
  let mask := (1 <<< CONFIG_NODE) ||| (1 <<< MAIN_INPUT_NODE)
  if mask &&& ng.streaming_map ≠ mask then (pispbe, false)
  else
    match (ng.ready_queue.getD CONFIG_NODE []).head? with
    | none => (pispbe, false)
    | some cfgIdx =>
      let config := ng.configs.getD cfgIdx default
      match pispbe_collect ng config cfgIdx nodeIds with
      | none => (pispbe, false)
      | some bufs =>
        let ng2 := { ng with ready_queue := commitReady ng.ready_queue bufs }
        ({ pispbe with
            node_group := pispbe.node_group.set g ng2,
            queued_job := { node_group := some g, buf := bufs },
            hw_busy := true }, true)

/-- `pispbe_schedule_one`: returns immediately when the hardware is busy,
else attempts admission for the one group. -/
def pispbe_schedule_one (pispbe : PispbeDev) (g : Nat) : PispbeDev :=
  if pispbe.hw_busy then pispbe
  else (pispbe_schedule_internal pispbe g).1

/-- The fixed-order scan of `pispbe_schedule_any`: attempt each group in turn,
stopping at the first success. -/
def scheduleAnyLoop (pispbe : PispbeDev) : List Nat → PispbeDev
  | [] => pispbe
  | g :: rest =>
    let r := pispbe_schedule_internal pispbe g
    if r.2 then r.1 else scheduleAnyLoop r.1 rest

/-- `pispbe_schedule_any`: optionally clear the busy flag, then, if the
hardware is free, scan the node groups in fixed order from group 0. -/
def pispbe_schedule_any (pispbe : PispbeDev) (clear_hw_busy : Bool) : PispbeDev :=
  let p := if clear_hw_busy then { pispbe with hw_busy := false } else pispbe
  if p.hw_busy = false then scheduleAnyLoop p (List.range PISPBE_NUM_NODE_GROUPS)
  else p

/-! ### Completion (pispbe_isr_jobdone, pispbe_isr) -/

/-- `pispbe_isr_jobdone`: complete every buffer of the job (stamping it with
the owning group's current sequence counter, recorded in the `completed`
log), then increment the group's sequence counter.  The C code is only called
with a non-null `node_group`; the `none` branch is unreachable there. -/
def pispbe_isr_jobdone (pispbe : PispbeDev) (job : PispbeJob) : PispbeDev :=
  match job.node_group with
  | none => pispbe
  | some g =>
    let ng := pispbe.node_group.getD g default
    let events := (job.buf.filterMap id).map (fun b => (g, b, ng.sequence))
    { pispbe with
        completed := pispbe.completed ++ events,
        node_group :=
          pispbe.node_group.set g { ng with sequence := (ng.sequence + 1) % 2 ^ 32 } }

/-- `pispbe_isr`: interrupt reconciliation.  `int_status` is the value read
from the interrupt status register (0 means the interrupt is not ours);
`hw_batch` is the combined batch-status register, low byte = hardware `done`
counter, next byte = hardware `started` counter.  Returns the new state and
whether the interrupt was handled. -/
def pispbe_isr (pispbe : PispbeDev) (int_status : Nat) (hw_batch : Nat) :
    PispbeDev × Bool :=
  if int_status = 0 then (pispbe, false)
  else
    let done := hw_batch % 256
    let started := (hw_batch >>> 8) % 256
    let p1 :=
      if pispbe.running_job.node_group.isSome ∧ pispbe.done ≠ done then
        let p := pispbe_isr_jobdone pispbe pispbe.running_job
        { p with running_job := emptyJob, done := (p.done + 1) % 256 }
      else pispbe
    let r2 : PispbeDev × Bool :=
      if p1.started ≠ started then
        let pa : PispbeDev := { p1 with started := (p1.started + 1) % 256 }
        let pb : PispbeDev :=
          if pa.done ≠ done ∧ pa.queued_job.node_group.isSome then
            let q := pispbe_isr_jobdone pa pa.queued_job
            { q with done := (q.done + 1) % 256 }
          else { pa with running_job := pa.queued_job }
        ({ pb with queued_job := emptyJob }, true)
      else (p1, false)
    let p3 :=
      if r2.1.done ≠ done ∨ r2.1.started ≠ started then
        { r2.1 with started := started, done := done }
      else r2.1
    (pispbe_schedule_any p3 r2.2, true)

/-! ### Streaming transitions (start/stop streaming) -/

/-- The scheduler-visible effect of `pispbe_node_start_streaming` on the node
group: set the node's bit in the streaming bitmap and reset the sequence
counter to 0. -/
def pispbe_node_start_streaming (ng : PispbeNodeGroup) (id : Nat) :
    PispbeNodeGroup :=
  { ng with streaming_map := ng.streaming_map ||| (1 <<< id), sequence := 0 }

/-- The scheduler-visible effect of `pispbe_node_stop_streaming` on the node
group: drain the node's ready FIFO (buffers returned as errors) and clear the
node's bit in the streaming bitmap.  The sequence counter is not touched. -/
def pispbe_node_stop_streaming (ng : PispbeNodeGroup) (id : Nat) :
    PispbeNodeGroup :=
  { ng with
      ready_queue := ng.ready_queue.set id [],
      streaming_map := clearBits ng.streaming_map (1 <<< id) }

/-! ### Address derivation and enable sanitizer
(get_addr_3, get_addr, fixup_addrs_enables) -/

/-- A vb2 buffer as the address code sees it: one DMA base address per
filled plane (`vb2_dma_contig_plane_dma_addr`). -/
structure VbBuffer where
  plane_addr : List Nat
deriving DecidableEq, Repr

/-- The per-format plane-factor table (`struct pisp_be_format`), in eighths,
one entry per possible plane (MAX_PLANES = 3). -/
structure PispFormat where
  plane_factor : List Nat
deriving DecidableEq, Repr

/-- The fields of `struct pispbe_node` read by `get_addr_3`:
`format.fmt.pix_mp.num_planes`, `plane_fmt[0].bytesperline`,
`format.fmt.pix_mp.height`, and the optional negotiated pisp format. -/
structure PispbeNodeFmt where
  num_planes : Nat
  bytesperline : Nat
  height : Nat
  pisp_format : Option PispFormat
deriving DecidableEq, Repr

instance : Inhabited PispbeNodeFmt := ⟨⟨0, 0, 0, none⟩⟩

/-- One iteration of the two plane loops of `get_addr_3`, at plane index
`p`, on the state (addresses written so far, cumulative plane factor,
whether the derivation loop has terminated).  For `p` below the number of
filled V4L2 planes this is the first loop (record the plane's own DMA
address); past it, while the plane factor is non-zero, the second loop
derives the address from plane 0 by the fixed-point offset
`(size * cumulative_factor) >> 3` (32-bit arithmetic, 64-bit address). -/
def get_addr_3_step (b : VbBuffer) (node : PispbeNodeFmt) (fmt : PispFormat)
    (st : List Nat × Nat × Bool) (p : Nat) : List Nat × Nat × Bool :=
  let size := (node.bytesperline * node.height) % 2 ^ 32
  if p < node.num_planes then
    (st.1.set p (b.plane_addr.getD p 0),
     (st.2.1 + fmt.plane_factor.getD p 0) % 2 ^ 32, st.2.2)
  else if st.2.2 = false ∧ fmt.plane_factor.getD p 0 ≠ 0 then
    (st.1.set p ((st.1.getD 0 0 + (((size * st.2.1) % 2 ^ 32) >>> 3)) % 2 ^ 64),
     (st.2.1 + fmt.plane_factor.getD p 0) % 2 ^ 32, st.2.2)
  else (st.1, st.2.1, true)

/-- `get_addr_3`: fill up to three plane addresses for a (possibly
multi-planar) buffer and return the number of filled V4L2 planes (0 when
there is no buffer or no negotiated pisp format). -/
def get_addr_3 (buf : Option VbBuffer) (node : PispbeNodeFmt) :
    List Nat × Nat :=
  match buf, node.pisp_format with
  | some b, some fmt =>
    (([0, 1, 2].foldl (get_addr_3_step b node fmt) ([0, 0, 0], 0, false)).1,
     node.num_planes)
  | _, _ => ([0, 0, 0], 0)

/-- `get_addr`: DMA address of plane 0, or 0 when there is no buffer. -/
def get_addr (buf : Option VbBuffer) : Nat :=
  match buf with
  | some b => b.plane_addr.getD 0 0
  | none => 0

/-- `fixup_addrs_enables`: derive the 14 hardware addresses and sanitize the
two enable bitmasks from the requested config enables and the job's buffers.
Returns (addresses, bayer enables, rgb enables).  Address slots the C code
leaves unwritten are 0 here. -/
def fixup_addrs_enables (config : BeConfig) (buf : List (Option VbBuffer))
    (nodes : List PispbeNodeFmt) : List Nat × Nat × Nat :=
  let hw0 := config.bayer_enables
  let hw1 := config.rgb_enables
  let main := get_addr_3 (buf.getD MAIN_INPUT_NODE none)
    (nodes.getD MAIN_INPUT_NODE default)
  if main.2 ≤ 0 then (main.1 ++ List.replicate 11 0, 0, 0)
  else
    let bayer : List Nat × Nat :=
      if hw0 &&& PISP_BE_BAYER_ENABLE_INPUT ≠ 0 then
        let a3 := get_addr (buf.getD TDN_INPUT_NODE none)
        let hw0a :=
          if a3 = 0 ∨ hw0 &&& PISP_BE_BAYER_ENABLE_TDN_INPUT = 0 ∨
              hw0 &&& PISP_BE_BAYER_ENABLE_TDN = 0 ∨ config.tdn_reset = true then
            let h := clearBits hw0 (PISP_BE_BAYER_ENABLE_TDN_INPUT |||
              PISP_BE_BAYER_ENABLE_TDN_DECOMPRESS)
            if ¬ config.tdn_reset = true then clearBits h PISP_BE_BAYER_ENABLE_TDN
            else h
          else hw0
        let a4 := get_addr (buf.getD STITCH_INPUT_NODE none)
        let hw0b :=
          if a4 = 0 ∨ hw0a &&& PISP_BE_BAYER_ENABLE_STITCH_INPUT = 0 ∨
              hw0a &&& PISP_BE_BAYER_ENABLE_STITCH = 0 then
            clearBits hw0a (PISP_BE_BAYER_ENABLE_STITCH_INPUT |||
              PISP_BE_BAYER_ENABLE_STITCH_DECOMPRESS |||
              PISP_BE_BAYER_ENABLE_STITCH)
          else hw0a
        let a5 := get_addr (buf.getD TDN_OUTPUT_NODE none)
        let hw0c :=
          if a5 = 0 then
            clearBits hw0b (PISP_BE_BAYER_ENABLE_TDN_COMPRESS |||
              PISP_BE_BAYER_ENABLE_TDN_OUTPUT)
          else hw0b
        let a6 := get_addr (buf.getD STITCH_OUTPUT_NODE none)
        let hw0d :=
          if a6 = 0 then
            clearBits hw0c (PISP_BE_BAYER_ENABLE_STITCH_COMPRESS |||
              PISP_BE_BAYER_ENABLE_STITCH_OUTPUT)
          else hw0c
        ([a3, a4, a5, a6], hw0d)
      else ([0, 0, 0, 0], 0)
    let out0 := get_addr_3 (buf.getD OUTPUT0_NODE none)
      (nodes.getD OUTPUT0_NODE default)
    let hw1a := if out0.2 ≤ 0 then clearBits hw1 PISP_BE_RGB_ENABLE_OUTPUT0 else hw1
    let out1 := get_addr_3 (buf.getD OUTPUT1_NODE none)
      (nodes.getD OUTPUT1_NODE default)
    let hw1b := if out1.2 ≤ 0 then clearBits hw1a PISP_BE_RGB_ENABLE_OUTPUT1 else hw1a
    let a13 := get_addr (buf.getD HOG_OUTPUT_NODE none)
    let hw1c := if a13 = 0 then clearBits hw1b PISP_BE_RGB_ENABLE_HOG else hw1b
    (main.1 ++ bayer.1 ++ out0.1 ++ out1.1 ++ [a13], bayer.2, hw1c)

/-! ### Register dispatch (hw_queue_job) -/

/-- The 64-bit value the read-back loop reassembles for address slot `u`
from the two 32-bit reads returned by the oracle `rd`. -/
def readback64 (rd : Nat → Nat) (u : Nat) : Nat :=
  (rd (PISP_BE_IO_INPUT_ADDR0_LO_OFFSET + 8 * u)) % 2 ^ 32 +
    ((rd (PISP_BE_IO_INPUT_ADDR0_LO_OFFSET + 8 * u + 4)) % 2 ^ 32) * 2 ^ 32

/-- The read-back check of `hw_queue_job`: every one of the 14 address
register pairs reads back as the address that was written. -/
def readbackOk (rd : Nat → Nat) (hw_dma_addrs : List Nat) : Bool :=
  (List.range N_HW_ADDRESSES).all
    (fun u => readback64 rd u == (hw_dma_addrs.getD u 0) % 2 ^ 64)

/-- `hw_queue_job` as the stream of register writes it performs, in order:
the 14 low/high address pairs, the two enable bitmasks, the bulk copy of the
config blob words (words `beginW ≤ u < beginW + configWords.length` of the
blob, each written at `PISP_BE_CONFIG_BASE_OFFSET + 4*u`), then — only if
every address reads back correctly — the tile-descriptor address pair and
the control register carrying the tile count and the go bits. -/
def hw_queue_job (rd : Nat → Nat) (hw_dma_addrs : List Nat)
    (hw_enables : Nat × Nat) (configWords : List Nat) (beginW : Nat)
    (tiles : Nat) (num_tiles : Nat) : List (Nat × Nat) :=
  let addrWrites := ((List.range N_HW_ADDRESSES).map (fun u =>
    [(PISP_BE_IO_INPUT_ADDR0_LO_OFFSET + 8 * u, (hw_dma_addrs.getD u 0) % 2 ^ 32),
     (PISP_BE_IO_INPUT_ADDR0_LO_OFFSET + 8 * u + 4,
       ((hw_dma_addrs.getD u 0) >>> 32) % 2 ^ 32)])).flatten
  let enableWrites := [(PISP_BE_GLOBAL_BAYER_ENABLE_OFFSET, hw_enables.1),
    (PISP_BE_GLOBAL_RGB_ENABLE_OFFSET, hw_enables.2)]
  let configWrites := (List.range configWords.length).map (fun k =>
    (PISP_BE_CONFIG_BASE_OFFSET + 4 * (beginW + k), configWords.getD k 0))
  let pre := addrWrites ++ enableWrites ++ configWrites
  if readbackOk rd hw_dma_addrs then
    pre ++ [(PISP_BE_TILE_ADDR_LO_OFFSET, tiles % 2 ^ 32),
      (PISP_BE_TILE_ADDR_HI_OFFSET, (tiles >>> 32) % 2 ^ 32),
      (PISP_BE_CONTROL_OFFSET, 3 + 65536 * num_tiles)]
  else pre

/-- The dispatch tail of `pispbe_schedule_internal` (after
`fixup_addrs_enables`): a degenerate job — tile count out of range, or no
input pipe enabled in the sanitized masks — has its tile count forced to the
sentinel 0, and the job is dispatched regardless. -/
def pispbe_dispatch_tail (rd : Nat → Nat) (hw_dma_addrs : List Nat)
    (hw_enables : Nat × Nat) (configWords : List Nat) (beginW : Nat)
    (tiles : Nat) (num_tiles : Int) : List (Nat × Nat) :=
  let i : Int :=
    if num_tiles ≤ 0 ∨ num_tiles > (PISP_BACK_END_NUM_TILES : Int) ∨
        (hw_enables.1 ||| hw_enables.2) &&& PISP_BE_BAYER_ENABLE_INPUT = 0 then 0
    else num_tiles
  hw_queue_job rd hw_dma_addrs hw_enables configWords beginW tiles i.toNat

/-- Number of jobs occupying the queued and running slots. -/
def jobCount (p : PispbeDev) : Nat :=
  (if p.queued_job.node_group.isSome then 1 else 0) +
    (if p.running_job.node_group.isSome then 1 else 0)

/-! ### Concrete inputs used by witnesses and counterexamples,
and statement helpers -/

/-- The success flag of `pispbe_schedule_internal`, characterized on the
group alone: the config and main-input nodes are streaming, a config buffer
is queued, and the admission scan finds every required buffer. -/
def scheduleFlag (ng : PispbeNodeGroup) : Bool :=
  let mask := (1 <<< CONFIG_NODE) ||| (1 <<< MAIN_INPUT_NODE)
  decide (mask &&& ng.streaming_map = mask) &&
    (match (ng.ready_queue.getD CONFIG_NODE []).head? with
     | none => false
     | some cfgIdx =>
       (pispbe_collect ng (ng.configs.getD cfgIdx default) cfgIdx nodeIds).isSome)

/-- A group streaming on config and main input but with an empty config
queue: admission fails. -/
def devFailW : PispbeDev :=
  ⟨[⟨(1 <<< CONFIG_NODE) ||| (1 <<< MAIN_INPUT_NODE),
      List.replicate 9 [], [], 0⟩,
    ⟨0, List.replicate 9 [], [], 0⟩],
   false, emptyJob, emptyJob, 0, 0, []⟩

/-- A busy device on which neither entry point admits anything. -/
def devBusyW : PispbeDev :=
  ⟨[⟨0, List.replicate 9 [], [], 0⟩, ⟨0, List.replicate 9 [], [], 0⟩],
   true, emptyJob, emptyJob, 0, 0, []⟩

/-- A config requesting everything, with no main-input buffer. -/
def cfgAllW : BeConfig := ⟨0xffffff, 0xffffff, 1, false⟩

/-- All auxiliary (TDN/stitch) feature bits of the bayer enable bitmask. -/
def PISP_BE_AUX_ENABLE_MASK : Nat :=
  PISP_BE_BAYER_ENABLE_TDN_INPUT ||| PISP_BE_BAYER_ENABLE_TDN_DECOMPRESS |||
  PISP_BE_BAYER_ENABLE_TDN ||| PISP_BE_BAYER_ENABLE_TDN_COMPRESS |||
  PISP_BE_BAYER_ENABLE_TDN_OUTPUT ||| PISP_BE_BAYER_ENABLE_STITCH_INPUT |||
  PISP_BE_BAYER_ENABLE_STITCH_DECOMPRESS ||| PISP_BE_BAYER_ENABLE_STITCH |||
  PISP_BE_BAYER_ENABLE_STITCH_COMPRESS ||| PISP_BE_BAYER_ENABLE_STITCH_OUTPUT

/-- A config with TDN and stitch requested but the bayer-input bit unset,
with buffers present everywhere. -/
def cfgNoInputW : BeConfig := ⟨0xfffffe, 0xffffff, 1, false⟩

def bufAllW : List (Option VbBuffer) := List.replicate 9 (some ⟨[4096, 8192, 12288]⟩)

def nodesAllW : List PispbeNodeFmt := List.replicate 9 ⟨3, 1920, 1080, some ⟨[4, 2, 2]⟩⟩

/-- A node group with nothing streaming, so that the scheduling sweep at the
end of the interrupt handler admits nothing. -/
def idleGroup : PispbeNodeGroup := ⟨0, List.replicate 9 [], [], 0⟩

/-- The job sitting in the queued slot in the first reconciliation
scenario: group 0, with a main-input buffer 5 and a config buffer 2. -/
def jobA : PispbeJob :=
  ⟨some 0, [some 5, none, none, none, none, none, none, none, some 2]⟩

/-- First scenario of claim C1: shadow counters (started, done) = (3, 3),
running slot empty, `jobA` in the queued slot. -/
def devC1A : PispbeDev := ⟨[idleGroup, idleGroup], true, jobA, emptyJob, 3, 3, []⟩

/-- The running and queued jobs of the second reconciliation scenario. -/
def jobB1 : PispbeJob :=
  ⟨some 0, [some 11, none, none, none, none, none, none, none, none]⟩

def jobB2 : PispbeJob :=
  ⟨some 0, [some 12, none, none, none, none, none, none, none, none]⟩

/-- Second scenario of claim C1: shadow (3, 3), `jobB1` running, `jobB2`
queued. -/
def devC1B : PispbeDev := ⟨[idleGroup, idleGroup], true, jobB2, jobB1, 3, 3, []⟩

/-- A group that is already streaming (bitmap non-zero) with a non-zero
sequence counter. -/
def ngC6 : PispbeNodeGroup := ⟨1 <<< MAIN_INPUT_NODE, List.replicate 9 [], [], 5⟩

/-- A 1920×1080 single-filled-plane buffer with plane factors 4/2/2, base
address 4096: plane 1 lands at base + 2073600·4/8 and plane 2 at
base + 2073600·6/8. -/
def nodeC9W : PispbeNodeFmt := ⟨1, 1920, 1080, some ⟨[4, 2, 2]⟩⟩

def bufC9W : VbBuffer := ⟨[4096]⟩

/-- Replace group `g` of the device (helper for stating C10). -/
def setGroup (dev : PispbeDev) (g : Nat) (ng : PispbeNodeGroup) : PispbeDev :=
  { dev with node_group := dev.node_group.set g ng }

/-- A config with the bayer-input bit set and output0 NOT enabled. -/
def cfgC10W : BeConfig := ⟨1, 0, 1, false⟩

/-- Group 0 of the C10 witness: config, main-input and output0 streaming
(bits 8, 0, 4), a buffer queued on main input (7), on output0 (3) and on
config (index 0). -/
def ngC10W : PispbeNodeGroup :=
  ⟨273, [[7], [], [], [], [3], [], [], [], [0]], [cfgC10W], 0⟩

def devC10W : PispbeDev :=
  ⟨[ngC10W, ⟨0, List.replicate 9 [], [], 0⟩], false, emptyJob, emptyJob, 0, 0, []⟩

/-! ### Helper lemmas -/

theorem listGetD_set_eq {α : Type} (l : List α) (i : Nat) (x d : α)
    (h : i < l.length) : (l.set i x).getD i d = x := by
  simp [List.getD, List.getElem?_set_self', h]

theorem listGetD_set_ne {α : Type} (l : List α) (i j : Nat) (x d : α)
    (h : i ≠ j) : (l.set i x).getD j d = l.getD j d := by
  simp [List.getD, List.getElem?_set_ne h]

/-- Every failure path of `pispbe_schedule_internal` leaves the device state
untouched: nothing is removed from any ready queue, and the queued-job slot
and busy flag keep their values. -/
theorem schedule_internal_fail_eq (p : PispbeDev) (g : Nat)
    (h : (pispbe_schedule_internal p g).2 = false) :
    (pispbe_schedule_internal p g).1 = p := by
  rcases hr : pispbe_schedule_internal p g with ⟨p', b⟩
  rw [hr] at h
  simp only at h
  subst h
  unfold pispbe_schedule_internal at hr
  simp only at hr
  split at hr
  · exact (Prod.mk.injEq _ _ _ _ ▸ hr).1.symm
  · split at hr
    · exact (Prod.mk.injEq _ _ _ _ ▸ hr).1.symm
    · split at hr
      · exact (Prod.mk.injEq _ _ _ _ ▸ hr).1.symm
      · exact absurd (Prod.mk.injEq _ _ _ _ ▸ hr).2 (by simp)

theorem listGetD_set_empty (l : List (List Nat)) (i : Nat) :
    ((l.set i []).getD i []) = [] := by
  rcases Nat.lt_or_ge i l.length with h | h
  · exact listGetD_set_eq _ _ _ _ h
  · exact List.getD_eq_default _ _ (by simpa using h)

/-- The six conditional nodes are the only ones `pispbe_ignore_buffers` can
select. -/
theorem ignore_node_ids (config : BeConfig) (i : Nat)
    (h : pispbe_ignore_buffers config i = true) :
    i = OUTPUT0_NODE ∨ i = OUTPUT1_NODE ∨ i = TDN_INPUT_NODE ∨
      i = TDN_OUTPUT_NODE ∨ i = STITCH_INPUT_NODE ∨ i = STITCH_OUTPUT_NODE := by
  unfold pispbe_ignore_buffers at h
  simp only [Bool.or_eq_true, Bool.and_eq_true, beq_iff_eq] at h
  tauto

/-- A streaming conditional node with its feature disabled never aborts the
admission loop: its entry is the front of its ready FIFO, taken as optional. -/
theorem collectEntry_streaming_ignore (ng : PispbeNodeGroup) (config : BeConfig)
    (cfgIdx i : Nat) (hi : i ≠ CONFIG_NODE)
    (hstream : ng.streaming_map &&& (1 <<< i) ≠ 0)
    (hign : pispbe_ignore_buffers config i = true) :
    collectEntry ng config cfgIdx i = some ((ng.ready_queue.getD i []).head?) := by
  unfold collectEntry
  rw [if_neg hi, if_neg hstream]
  rcases hh : (ng.ready_queue.getD i []).head? with _ | b
  · rw [if_pos hign]
  · rfl

/-- Entries of nodes other than `i` are unaffected by replacing node `i`'s
ready FIFO. -/
theorem collectEntry_set_ne (ng : PispbeNodeGroup) (config : BeConfig)
    (cfgIdx i j : Nat) (q : List Nat) (hne : i ≠ j) :
    collectEntry { ng with ready_queue := ng.ready_queue.set i q } config cfgIdx j =
      collectEntry ng config cfgIdx j := by
  unfold collectEntry
  rw [listGetD_set_ne _ _ _ _ _ hne]

theorem pispbe_collect_length (ng : PispbeNodeGroup) (config : BeConfig)
    (cfgIdx : Nat) : ∀ (l : List Nat) (bufs : List (Option Nat)),
    pispbe_collect ng config cfgIdx l = some bufs → bufs.length = l.length := by
  intro l
  induction l with
  | nil => intro bufs h; cases h; rfl
  | cons j rest ih =>
    intro bufs h
    unfold pispbe_collect at h
    rcases he : collectEntry ng config cfgIdx j with _ | e <;> rw [he] at h
    · exact absurd h (by simp)
    · rcases ht : pispbe_collect ng config cfgIdx rest with _ | t <;> rw [ht] at h
      · exact absurd h (by simp)
      · cases h
        simpa using ih t ht

/-- The buffer recorded at position `k` of a successful collection is
exactly the entry of the node at position `k` of the scanned list. -/
theorem pispbe_collect_getD (ng : PispbeNodeGroup) (config : BeConfig)
    (cfgIdx : Nat) : ∀ (l : List Nat) (bufs : List (Option Nat)),
    pispbe_collect ng config cfgIdx l = some bufs → ∀ k, k < l.length →
    collectEntry ng config cfgIdx (l.getD k 0) = some (bufs.getD k none) := by
  intro l
  induction l with
  | nil => intro bufs _ k hk; exact absurd hk (by simp)
  | cons j rest ih =>
    intro bufs h k hk
    unfold pispbe_collect at h
    rcases he : collectEntry ng config cfgIdx j with _ | e <;> rw [he] at h
    · exact absurd h (by simp)
    · rcases ht : pispbe_collect ng config cfgIdx rest with _ | t <;> rw [ht] at h
      · exact absurd h (by simp)
      · cases h
        rcases k with _ | k
        · simpa using he
        · exact ih t ht k (by simpa using hk)

/-- Emptying the FIFO of a streaming conditional node whose feature is
disabled does not change whether the admission scan succeeds. -/
theorem collect_set_empty_isSome (ng : PispbeNodeGroup) (config : BeConfig)
    (cfgIdx i : Nat) (hi : i ≠ CONFIG_NODE)
    (hstream : ng.streaming_map &&& (1 <<< i) ≠ 0)
    (hign : pispbe_ignore_buffers config i = true) : ∀ l : List Nat,
    (pispbe_collect { ng with ready_queue := ng.ready_queue.set i [] } config
      cfgIdx l).isSome = (pispbe_collect ng config cfgIdx l).isSome := by
  intro l
  induction l with
  | nil => rfl
  | cons j rest ih =>
    unfold pispbe_collect
    by_cases hj : i = j
    · subst hj
      have h1 : collectEntry { ng with ready_queue := ng.ready_queue.set i [] }
          config cfgIdx i = some none := by
        rw [collectEntry_streaming_ignore _ config cfgIdx i hi
          (by simpa using hstream) hign]
        rw [show ({ ng with ready_queue := ng.ready_queue.set i [] } :
          PispbeNodeGroup).ready_queue = ng.ready_queue.set i [] from rfl]
        rw [listGetD_set_empty]
        rfl
      have h2 := collectEntry_streaming_ignore ng config cfgIdx i hi hstream hign
      rw [h1, h2]
      rcases ha : pispbe_collect { ng with ready_queue := ng.ready_queue.set i [] }
          config cfgIdx rest with _ | t1 <;>
        rcases hb : pispbe_collect ng config cfgIdx rest with _ | t2 <;>
        simp_all
    · rw [collectEntry_set_ne ng config cfgIdx i j [] hj]
      rcases he : collectEntry ng config cfgIdx j with _ | e
      · simp
      · rcases ha : pispbe_collect { ng with ready_queue := ng.ready_queue.set i [] }
            config cfgIdx rest with _ | t1 <;>
          rcases hb : pispbe_collect ng config cfgIdx rest with _ | t2 <;>
          simp_all

theorem commitReady_getD : ∀ (qs : List (List Nat)) (bufs : List (Option Nat))
    (i : Nat), i < qs.length → i < bufs.length →
    (commitReady qs bufs).getD i [] =
      if (bufs.getD i none).isSome then (qs.getD i []).tail else qs.getD i []
  | [], _, i, h, _ => absurd h (by simp)
  | _ :: _, [], i, _, h => absurd h (by simp)
  | q :: qs, b :: bufs, 0, _, _ => rfl
  | q :: qs, b :: bufs, i + 1, h1, h2 =>
    commitReady_getD qs bufs i (by simpa using h1) (by simpa using h2)

theorem mem_of_getD_some {α : Type} (l : List (Option α)) (i : Nat) (b : α)
    (h : l.getD i none = some b) : some b ∈ l := by
  rcases Nat.lt_or_ge i l.length with hi | hi
  · rw [List.getD_eq_getElem l none hi] at h
    exact h ▸ List.getElem_mem hi
  · rw [List.getD_eq_default _ _ hi] at h
    cases h

/-- Completing a job returns every buffer it references: each is logged with
the owning group and the group's sequence counter at completion time. -/
theorem jobdone_completes (d : PispbeDev) (job : PispbeJob) (g b : Nat)
    (hg : job.node_group = some g) (hb : some b ∈ job.buf) :
    (g, b, (d.node_group.getD g default).sequence) ∈
      (pispbe_isr_jobdone d job).completed := by
  unfold pispbe_isr_jobdone
  rw [hg]
  simp only [List.mem_append]
  right
  simp only [List.mem_map, List.mem_filterMap]
  exact ⟨b, ⟨some b, hb, rfl⟩, rfl⟩

theorem schedule_internal_flag (dev : PispbeDev) (g : Nat) :
    (pispbe_schedule_internal dev g).2 =
      scheduleFlag (dev.node_group.getD g default) := by
  unfold pispbe_schedule_internal scheduleFlag
  by_cases hm : ((1 <<< CONFIG_NODE) ||| (1 <<< MAIN_INPUT_NODE)) &&&
      (dev.node_group.getD g default).streaming_map =
      ((1 <<< CONFIG_NODE) ||| (1 <<< MAIN_INPUT_NODE))
  · rw [if_neg (by simpa using hm)]
    simp only [hm, decide_True, Bool.true_and]
    rcases hc : ((dev.node_group.getD g default).ready_queue.getD CONFIG_NODE
        []).head? with _ | cfgIdx
    · rfl
    · dsimp only
      rcases hcol : pispbe_collect (dev.node_group.getD g default)
          ((dev.node_group.getD g default).configs.getD cfgIdx default) cfgIdx
          nodeIds with _ | bufs <;> rfl
  · rw [if_pos (by simpa using hm)]
    have hd : decide (((1 <<< CONFIG_NODE) ||| (1 <<< MAIN_INPUT_NODE)) &&&
        (dev.node_group.getD g default).streaming_map =
        ((1 <<< CONFIG_NODE) ||| (1 <<< MAIN_INPUT_NODE))) = false := by
      simpa using hm
    simp only [hd, Bool.false_and]

/-- The full result of a successful admission. -/
theorem schedule_internal_success_eq (dev : PispbeDev) (g cfgIdx : Nat)
    (bufs : List (Option Nat))
    (hm : ((1 <<< CONFIG_NODE) ||| (1 <<< MAIN_INPUT_NODE)) &&&
      (dev.node_group.getD g default).streaming_map =
      ((1 <<< CONFIG_NODE) ||| (1 <<< MAIN_INPUT_NODE)))
    (hcfg : ((dev.node_group.getD g default).ready_queue.getD CONFIG_NODE
      []).head? = some cfgIdx)
    (hcol : pispbe_collect (dev.node_group.getD g default)
      ((dev.node_group.getD g default).configs.getD cfgIdx default) cfgIdx
      nodeIds = some bufs) :
    pispbe_schedule_internal dev g =
      ({ dev with
          node_group := dev.node_group.set g
            { dev.node_group.getD g default with
                ready_queue := commitReady
                  (dev.node_group.getD g default).ready_queue bufs },
          queued_job := ⟨some g, bufs⟩,
          hw_busy := true }, true) := by
  unfold pispbe_schedule_internal
  rw [if_neg (by simpa using hm), hcfg]
  simp only
  rw [hcol]

/-- Emptying the FIFO of a streaming, feature-disabled conditional node does
not change the admission success flag. -/
theorem scheduleFlag_set_empty (ng : PispbeNodeGroup) (i cfgIdx : Nat)
    (config : BeConfig) (hi8 : i ≠ CONFIG_NODE)
    (hcfg : (ng.ready_queue.getD CONFIG_NODE []).head? = some cfgIdx)
    (hconfig : ng.configs.getD cfgIdx default = config)
    (hstream : ng.streaming_map &&& (1 <<< i) ≠ 0)
    (hign : pispbe_ignore_buffers config i = true) :
    scheduleFlag { ng with ready_queue := ng.ready_queue.set i [] } =
      scheduleFlag ng := by
  unfold scheduleFlag
  dsimp only
  rw [listGetD_set_ne _ _ _ _ _ hi8, hcfg]
  dsimp only
  rw [collect_set_empty_isSome ng (ng.configs.getD cfgIdx default) cfgIdx i hi8
    hstream (by rw [hconfig]; exact hign)]

/-! ### Claim theorems -/

/-- Claim C2: admission is all-or-nothing.  Whenever
`pispbe_schedule_internal` fails to admit a job (for whatever reason: the
config/main-input streaming precondition, an empty config queue, or a
streaming node whose required buffer is missing), the resulting device state
is identical to the input state: no ready queue loses a buffer, the
queued-job slot is untouched, and the busy flag is unchanged. -/
theorem c2_admission_atomicity (p : PispbeDev) (g : Nat)
    (h : (pispbe_schedule_internal p g).2 = false) :
    (pispbe_schedule_internal p g).1 = p :=
  schedule_internal_fail_eq p g h

theorem c2_admission_atomicity_witness :
    (pispbe_schedule_internal devFailW 0).2 = false ∧
    (pispbe_schedule_internal devFailW 0).1 = devFailW :=
  ⟨by decide, c2_admission_atomicity devFailW 0 (by decide)⟩

/-- Claim C8: busy-flag gating and fixed scan order.
(1) `pispbe_schedule_one` returns immediately, changing nothing, when the
busy flag is set; (2) `pispbe_schedule_any` without clearing the busy flag
changes nothing while the flag is set; (3) `pispbe_schedule_any` with the
flag cleared scans the node groups in fixed order from group 0, stopping at
the first group whose admission succeeds (the resulting state is group 0's
on success, else group 1's attempt from the unchanged state); (4) at most 2
jobs ever occupy the queued and running slots combined. -/
theorem c8_busy_gate_scan_order :
    (∀ (p : PispbeDev) (g : Nat), p.hw_busy = true → pispbe_schedule_one p g = p) ∧
    (∀ p : PispbeDev, p.hw_busy = true → pispbe_schedule_any p false = p) ∧
    (∀ p : PispbeDev,
      pispbe_schedule_any p true =
        if (pispbe_schedule_internal { p with hw_busy := false } 0).2 then
          (pispbe_schedule_internal { p with hw_busy := false } 0).1
        else (pispbe_schedule_internal { p with hw_busy := false } 1).1) ∧
    (∀ p : PispbeDev, jobCount p ≤ 2) := by
  refine ⟨?_, ?_, ?_, ?_⟩
  · intro p g h
    unfold pispbe_schedule_one
    simp [h]
  · intro p h
    unfold pispbe_schedule_any
    simp [h]
  · intro p
    unfold pispbe_schedule_any
    simp only [if_pos rfl]
    have hrange : List.range PISPBE_NUM_NODE_GROUPS = [0, 1] := rfl
    rw [hrange]
    by_cases h0 : (pispbe_schedule_internal { p with hw_busy := false } 0).2
    · simp [scheduleAnyLoop, h0]
    · have heq := schedule_internal_fail_eq { p with hw_busy := false } 0
        (by simpa using h0)
      simp [scheduleAnyLoop, h0, heq]
  · intro p
    unfold jobCount
    split <;> split <;> omega

theorem c8_busy_gate_scan_order_witness :
    pispbe_schedule_one devBusyW 0 = devBusyW ∧
    pispbe_schedule_any devBusyW false = devBusyW ∧
    pispbe_schedule_any devBusyW true =
      (if (pispbe_schedule_internal { devBusyW with hw_busy := false } 0).2 then
        (pispbe_schedule_internal { devBusyW with hw_busy := false } 0).1
      else (pispbe_schedule_internal { devBusyW with hw_busy := false } 1).1) ∧
    jobCount devBusyW ≤ 2 :=
  ⟨c8_busy_gate_scan_order.1 devBusyW 0 (by decide),
   c8_busy_gate_scan_order.2.1 devBusyW (by decide),
   c8_busy_gate_scan_order.2.2.1 devBusyW,
   c8_busy_gate_scan_order.2.2.2 devBusyW⟩

/-- Claim C3: bayer-gate invariant.  If the main-input buffer is absent, or
the main-input node has no negotiated pisp format, the sanitizer outputs
zero for both enable bitmasks, whatever the config requested. -/
theorem c3_bayer_gate (config : BeConfig) (buf : List (Option VbBuffer))
    (nodes : List PispbeNodeFmt)
    (h : buf.getD MAIN_INPUT_NODE none = none ∨
      (nodes.getD MAIN_INPUT_NODE default).pisp_format = none) :
    (fixup_addrs_enables config buf nodes).2.1 = 0 ∧
    (fixup_addrs_enables config buf nodes).2.2 = 0 := by
  have hm : (get_addr_3 (buf.getD MAIN_INPUT_NODE none)
      (nodes.getD MAIN_INPUT_NODE default)).2 = 0 := by
    rcases h with h | h
    · rw [h]; rfl
    · unfold get_addr_3
      rw [h]
      rcases hb : buf.getD MAIN_INPUT_NODE none with _ | b <;> rfl
  unfold fixup_addrs_enables
  simp only
  rw [if_pos (by omega : (get_addr_3 (buf.getD MAIN_INPUT_NODE none)
    (nodes.getD MAIN_INPUT_NODE default)).2 ≤ 0)]
  exact ⟨rfl, rfl⟩

theorem c3_bayer_gate_witness :
    (fixup_addrs_enables cfgAllW (List.replicate 9 none) []).2.1 = 0 ∧
    (fixup_addrs_enables cfgAllW (List.replicate 9 none) []).2.2 = 0 :=
  c3_bayer_gate cfgAllW (List.replicate 9 none) [] (Or.inl (by decide))

/-- Claim C4: auxiliary-gate invariant.  If the primary bayer-input enable
bit is unset in the requested bayer bitmask, every auxiliary (TDN/stitch)
enable bit is cleared in the sanitized output (the whole bayer bitmask is in
fact zeroed), regardless of what was requested. -/
theorem c4_aux_gate (config : BeConfig) (buf : List (Option VbBuffer))
    (nodes : List PispbeNodeFmt)
    (h : config.bayer_enables &&& PISP_BE_BAYER_ENABLE_INPUT = 0) :
    (fixup_addrs_enables config buf nodes).2.1 &&& PISP_BE_AUX_ENABLE_MASK = 0 := by
  have hz : (fixup_addrs_enables config buf nodes).2.1 = 0 := by
    unfold fixup_addrs_enables
    simp only
    split
    · rfl
    · rw [if_neg (by simp [h])]
  rw [hz]
  rfl

theorem c4_aux_gate_witness :
    (fixup_addrs_enables cfgNoInputW bufAllW nodesAllW).2.1 &&&
      PISP_BE_AUX_ENABLE_MASK = 0 :=
  c4_aux_gate cfgNoInputW bufAllW nodesAllW (by decide)

/-- Every write `hw_queue_job` performs before the read-back check targets a
register at or above the config window (offset `0x40`). -/
theorem hw_queue_job_pre_offsets (rd : Nat → Nat) (hw_dma_addrs : List Nat)
    (hw_enables : Nat × Nat) (configWords : List Nat) (beginW tiles num_tiles : Nat)
    (hrb : readbackOk rd hw_dma_addrs = false) :
    ∀ wr ∈ hw_queue_job rd hw_dma_addrs hw_enables configWords beginW tiles
      num_tiles, PISP_BE_CONFIG_BASE_OFFSET ≤ wr.1 := by
  intro wr hwr
  unfold hw_queue_job at hwr
  rw [if_neg (by simp [hrb])] at hwr
  simp only [List.mem_append, List.mem_flatten, List.mem_map, List.mem_range,
    List.mem_cons, List.not_mem_nil, or_false] at hwr
  rcases hwr with (⟨l, ⟨u, _, rfl⟩, hl⟩ | h | h) | ⟨k, _, rfl⟩
  · simp only [List.mem_cons, List.not_mem_nil, or_false] at hl
    rcases hl with rfl | rfl <;>
      · simp only [PISP_BE_CONFIG_BASE_OFFSET, PISP_BE_IO_INPUT_ADDR0_LO_OFFSET]
        omega
  · subst h
    simp [PISP_BE_CONFIG_BASE_OFFSET, PISP_BE_GLOBAL_BAYER_ENABLE_OFFSET]
  · subst h
    simp [PISP_BE_CONFIG_BASE_OFFSET, PISP_BE_GLOBAL_RGB_ENABLE_OFFSET]
  · simp [PISP_BE_CONFIG_BASE_OFFSET]

/-- Claim C5: read-back abort.  If any of the 14 written 64-bit address
register pairs reads back differently from what was written, the dispatch is
aborted at the read-back check: the write stream of `hw_queue_job` contains
no write to the tile-descriptor address registers and none to the control
register carrying the go bit. -/
theorem c5_readback_abort (rd : Nat → Nat) (hw_dma_addrs : List Nat)
    (hw_enables : Nat × Nat) (configWords : List Nat) (beginW tiles num_tiles : Nat)
    (h : ∃ u, u < N_HW_ADDRESSES ∧
      readback64 rd u ≠ (hw_dma_addrs.getD u 0) % 2 ^ 64) :
    ∀ wr ∈ hw_queue_job rd hw_dma_addrs hw_enables configWords beginW tiles
      num_tiles,
      wr.1 ≠ PISP_BE_TILE_ADDR_LO_OFFSET ∧ wr.1 ≠ PISP_BE_TILE_ADDR_HI_OFFSET ∧
        wr.1 ≠ PISP_BE_CONTROL_OFFSET := by
  have hrb : readbackOk rd hw_dma_addrs = false := by
    rcases h with ⟨u, hu, hne⟩
    by_contra hok
    have hok' : readbackOk rd hw_dma_addrs = true := by
      rcases hb : readbackOk rd hw_dma_addrs with _ | _
      · exact absurd hb hok
      · rfl
    unfold readbackOk at hok'
    rw [List.all_eq_true] at hok'
    exact hne (by simpa using hok' u (List.mem_range.mpr hu))
  intro wr hwr
  have := hw_queue_job_pre_offsets rd hw_dma_addrs hw_enables configWords
    beginW tiles num_tiles hrb wr hwr
  refine ⟨?_, ?_, ?_⟩ <;>
    · intro hh
      rw [hh] at this
      simp [PISP_BE_CONFIG_BASE_OFFSET, PISP_BE_TILE_ADDR_LO_OFFSET,
        PISP_BE_TILE_ADDR_HI_OFFSET, PISP_BE_CONTROL_OFFSET] at this

/-- A mismatching read-back oracle: the hardware reads back 0 everywhere but
address 1 was written. -/
theorem c5_readback_abort_witness :
    (hw_queue_job (fun _ => 0) (List.replicate 14 1) (0, 0) [] 18 0 0).all
      (fun wr => decide (wr.1 ≠ PISP_BE_TILE_ADDR_LO_OFFSET ∧
        wr.1 ≠ PISP_BE_TILE_ADDR_HI_OFFSET ∧
        wr.1 ≠ PISP_BE_CONTROL_OFFSET)) = true := by
  rw [List.all_eq_true]
  intro wr hwr
  exact decide_eq_true (c5_readback_abort (fun _ => 0) (List.replicate 14 1)
    (0, 0) [] 18 0 0 ⟨0, by decide, by decide⟩ wr hwr)

/-- Claim C7: degenerate-job liveness.  When the tile count is zero,
negative or above the maximum, or the sanitized enable masks have no input
pipe enabled, the dispatch tail does not skip the job: with the addresses
reading back correctly it still performs the full dispatch, ending with the
go-bit control write carrying the forced sentinel tile count 0. -/
theorem c7_degenerate_job_dispatch (rd : Nat → Nat) (hw_dma_addrs : List Nat)
    (hw_enables : Nat × Nat) (configWords : List Nat) (beginW tiles : Nat)
    (num_tiles : Int)
    (hdeg : num_tiles ≤ 0 ∨ num_tiles > (PISP_BACK_END_NUM_TILES : Int) ∨
      (hw_enables.1 ||| hw_enables.2) &&& PISP_BE_BAYER_ENABLE_INPUT = 0)
    (hrb : readbackOk rd hw_dma_addrs = true) :
    (PISP_BE_CONTROL_OFFSET, 3 + 65536 * 0) ∈
      pispbe_dispatch_tail rd hw_dma_addrs hw_enables configWords beginW tiles
        num_tiles := by
  unfold pispbe_dispatch_tail
  rw [if_pos hdeg]
  unfold hw_queue_job
  rw [if_pos hrb]
  simp

/-- A degenerate job (no input pipe enabled, tile count 0) with a consistent
read-back oracle: the go-bit write is still issued. -/
theorem c7_degenerate_job_dispatch_witness :
    (PISP_BE_CONTROL_OFFSET, 3 + 65536 * 0) ∈
      pispbe_dispatch_tail (fun _ => 0) (List.replicate 14 0) (0, 0) [] 18 0 0 :=
  c7_degenerate_job_dispatch (fun _ => 0) (List.replicate 14 0) (0, 0) [] 18 0 0
    (Or.inl (by decide)) (by decide)

/-- Claim C1 counterexample: in the first scenario of the claim — shadow
counters (started, done) = (3, 3), running slot empty (as the spec's
example states), a job in the queued slot, hardware reporting
(started, done) = (4, 4) — the interrupt handler does NOT promote the
queued job into the running slot: the running slot ends empty (and differs
from the queued job), because the queued job's buffers are completed
directly (they appear in the completion log).  The shadow counters do end
at (4, 4). -/
theorem c1_isr_reconciliation_counterexample :
    (pispbe_isr devC1A 1 (4 + 4 * 256)).1.running_job = emptyJob ∧
    (pispbe_isr devC1A 1 (4 + 4 * 256)).1.running_job ≠ devC1A.queued_job ∧
    (pispbe_isr devC1A 1 (4 + 4 * 256)).1.completed = [(0, 5, 0), (0, 2, 0)] ∧
    (pispbe_isr devC1A 1 (4 + 4 * 256)).1.started = 4 ∧
    (pispbe_isr devC1A 1 (4 + 4 * 256)).1.done = 4 := by
  refine ⟨by decide, by decide, by decide, by decide, by decide⟩

/-- Claim C1 as amended: from shadow (started, done) = (3, 3) with the
running slot empty and a job queued, (a) hardware (4, 4) means the queued
job started and finished within the window, so it is completed directly
(both of its buffers stamped with sequence 0, in the completion log),
the running slot stays empty and shadow becomes (4, 4); (b) promotion of
the queued job into the running slot happens when hardware instead reports
(4, 3) (a start without a completion), with nothing completed and shadow
(started, done) = (4, 3); (c) with a job running and a job queued and
hardware (4, 5), the running job completes first (sequence 0), then the
queued job completes directly without occupying the running slot
(sequence 1), the running slot ends empty and shadow becomes
(started, done) = (4, 5). -/
theorem c1_isr_reconciliation_amended :
    ((pispbe_isr devC1A 1 (4 + 4 * 256)).1.running_job = emptyJob ∧
      (pispbe_isr devC1A 1 (4 + 4 * 256)).1.queued_job = emptyJob ∧
      (pispbe_isr devC1A 1 (4 + 4 * 256)).1.completed = [(0, 5, 0), (0, 2, 0)] ∧
      (pispbe_isr devC1A 1 (4 + 4 * 256)).1.started = 4 ∧
      (pispbe_isr devC1A 1 (4 + 4 * 256)).1.done = 4) ∧
    ((pispbe_isr devC1A 1 (3 + 4 * 256)).1.running_job = jobA ∧
      (pispbe_isr devC1A 1 (3 + 4 * 256)).1.queued_job = emptyJob ∧
      (pispbe_isr devC1A 1 (3 + 4 * 256)).1.completed = [] ∧
      (pispbe_isr devC1A 1 (3 + 4 * 256)).1.started = 4 ∧
      (pispbe_isr devC1A 1 (3 + 4 * 256)).1.done = 3) ∧
    ((pispbe_isr devC1B 1 (5 + 4 * 256)).1.running_job = emptyJob ∧
      (pispbe_isr devC1B 1 (5 + 4 * 256)).1.queued_job = emptyJob ∧
      (pispbe_isr devC1B 1 (5 + 4 * 256)).1.completed = [(0, 11, 0), (0, 12, 1)] ∧
      (pispbe_isr devC1B 1 (5 + 4 * 256)).1.started = 4 ∧
      (pispbe_isr devC1B 1 (5 + 4 * 256)).1.done = 5) := by
  refine ⟨⟨by decide, by decide, by decide, by decide, by decide⟩,
    ⟨by decide, by decide, by decide, by decide, by decide⟩,
    ⟨by decide, by decide, by decide, by decide, by decide⟩⟩

/-- Claim C6 counterexample: starting a node's stream resets the group's
sequence counter to 0 even when the group is already streaming — here the
group's streaming bitmap is non-zero both before and after (so there is no
not-streaming → streaming transition), yet the counter drops from 5 to 0. -/
theorem c6_sequence_counterexample :
    ngC6.streaming_map ≠ 0 ∧
    (pispbe_node_start_streaming ngC6 TDN_INPUT_NODE).streaming_map ≠ 0 ∧
    ngC6.sequence = 5 ∧
    (pispbe_node_start_streaming ngC6 TDN_INPUT_NODE).sequence = 0 := by
  refine ⟨by decide, by decide, by decide, by decide⟩

/-- Claim C6 as amended: the per-group sequence counter increments by
exactly 1 (modulo 2^32) for each job completed that references the group,
is reset to 0 on EVERY start-streaming of any node of the group (not only
when the group transitions from not-streaming to streaming), and is left
unchanged by stop-streaming. -/
theorem c6_sequence_amended :
    (∀ (dev : PispbeDev) (job : PispbeJob) (g : Nat), job.node_group = some g →
      g < dev.node_group.length →
      ((pispbe_isr_jobdone dev job).node_group.getD g default).sequence =
        ((dev.node_group.getD g default).sequence + 1) % 2 ^ 32) ∧
    (∀ (ng : PispbeNodeGroup) (id : Nat),
      (pispbe_node_start_streaming ng id).sequence = 0) ∧
    (∀ (ng : PispbeNodeGroup) (id : Nat),
      (pispbe_node_stop_streaming ng id).sequence = ng.sequence) := by
  refine ⟨?_, fun ng id => rfl, fun ng id => rfl⟩
  intro dev job g hg hlen
  unfold pispbe_isr_jobdone
  rw [hg]
  simp only
  rw [listGetD_set_eq _ _ _ _ hlen]

/-- Claim C9: plane-address derivation.  For a 3-plane format with one
filled V4L2 plane and plane factors `[f0, f1, f2]` (in eighths, `f1`, `f2`
non-zero), `get_addr_3` derives plane 1 at plane 0's address plus
`size * f0 / 8` and plane 2 at plane 0's address plus `size * (f0 + f1) / 8`,
where `size = bytesperline * height`; the return value counts the one
filled plane.  The bound hypotheses state that the 32-bit products and the
64-bit address sums do not wrap. -/
theorem c9_plane_address_derivation (b : VbBuffer) (node : PispbeNodeFmt)
    (fmt : PispFormat) (f0 f1 f2 : Nat)
    (hfmt : node.pisp_format = some fmt)
    (hfac : fmt.plane_factor = [f0, f1, f2])
    (hnp : node.num_planes = 1)
    (hf1 : f1 ≠ 0) (hf2 : f2 ≠ 0)
    (hsz : node.bytesperline * node.height < 2 ^ 32)
    (hfs : f0 + f1 < 2 ^ 32)
    (hc0 : node.bytesperline * node.height * f0 < 2 ^ 32)
    (hc1 : node.bytesperline * node.height * (f0 + f1) < 2 ^ 32)
    (ha0 : b.plane_addr.getD 0 0 + node.bytesperline * node.height * f0 / 8 < 2 ^ 64)
    (ha1 : b.plane_addr.getD 0 0 +
      node.bytesperline * node.height * (f0 + f1) / 8 < 2 ^ 64) :
    (get_addr_3 (some b) node).1 =
      [b.plane_addr.getD 0 0,
       b.plane_addr.getD 0 0 + node.bytesperline * node.height * f0 / 8,
       b.plane_addr.getD 0 0 + node.bytesperline * node.height * (f0 + f1) / 8] ∧
    (get_addr_3 (some b) node).2 = 1 := by
  have hf0 : f0 < 2 ^ 32 := by omega
  have hszm : node.bytesperline * node.height % 2 ^ 32 =
      node.bytesperline * node.height := Nat.mod_eq_of_lt hsz
  have hshift : ∀ x : Nat, x >>> 3 = x / 8 := fun x => by
    rw [Nat.shiftRight_eq_div_pow]
  have e0 : get_addr_3_step b node fmt ([0, 0, 0], 0, false) 0 =
      ([b.plane_addr.getD 0 0, 0, 0], f0, false) := by
    unfold get_addr_3_step
    rw [if_pos (by rw [hnp]; decide)]
    simp [hfac]
    omega
  have e1 : get_addr_3_step b node fmt ([b.plane_addr.getD 0 0, 0, 0], f0, false) 1 =
      ([b.plane_addr.getD 0 0,
        b.plane_addr.getD 0 0 + node.bytesperline * node.height * f0 / 8, 0],
       (f0 + f1) % 2 ^ 32, false) := by
    unfold get_addr_3_step
    rw [if_neg (by rw [hnp]; decide)]
    rw [if_pos (by simp [hfac, hf1])]
    simp only [hfac]
    rw [hszm]
    rw [Nat.mod_eq_of_lt hc0, hshift]
    rw [show ([b.plane_addr.getD 0 0, 0, 0] : List Nat).getD 0 0 =
      b.plane_addr.getD 0 0 from rfl]
    rw [Nat.mod_eq_of_lt ha0]
    rfl
  have e2 : get_addr_3_step b node fmt
      ([b.plane_addr.getD 0 0,
        b.plane_addr.getD 0 0 + node.bytesperline * node.height * f0 / 8, 0],
       (f0 + f1) % 2 ^ 32, false) 2 =
      ([b.plane_addr.getD 0 0,
        b.plane_addr.getD 0 0 + node.bytesperline * node.height * f0 / 8,
        b.plane_addr.getD 0 0 + node.bytesperline * node.height * (f0 + f1) / 8],
       (f0 + f1 + f2) % 2 ^ 32, false) := by
    unfold get_addr_3_step
    rw [if_neg (by rw [hnp]; decide)]
    rw [if_pos (by simp [hfac, hf2])]
    simp only [hfac]
    rw [hszm, Nat.mod_eq_of_lt hfs]
    rw [Nat.mod_eq_of_lt hc1, hshift]
    rw [show ([b.plane_addr.getD 0 0,
      b.plane_addr.getD 0 0 + node.bytesperline * node.height * f0 / 8, 0] :
      List Nat).getD 0 0 = b.plane_addr.getD 0 0 from rfl]
    rw [Nat.mod_eq_of_lt ha1]
    rfl
  have hga : get_addr_3 (some b) node =
      (([0, 1, 2].foldl (get_addr_3_step b node fmt) ([0, 0, 0], 0, false)).1,
       node.num_planes) := by
    unfold get_addr_3
    rw [hfmt]
  constructor
  · rw [hga]
    simp only [List.foldl_cons, List.foldl_nil]
    rw [e0, e1, e2]
  · rw [hga]
    exact hnp

theorem c9_plane_address_derivation_witness :
    (get_addr_3 (some bufC9W) nodeC9W).1 = [4096, 4096 + 1036800, 4096 + 1555200] ∧
    (get_addr_3 (some bufC9W) nodeC9W).2 = 1 := by
  have h := c9_plane_address_derivation bufC9W nodeC9W ⟨[4, 2, 2]⟩ 4 2 2 rfl rfl
    rfl (by decide) (by decide) (by decide) (by decide) (by decide) (by decide)
    (by decide) (by decide)
  simpa using h

/-- Claim C10: a conditional node (output0/output1, TDN or stitch
input/output) that is streaming while its feature enable bit is unset in the
peeked config does not block admission when its FIFO is empty, yet a buffer
at the front of its FIFO is still taken into the admitted job and returned
at job completion.  Part 1: emptying node `i`'s FIFO leaves the admission
success flag unchanged.  Part 2: on success, the job's slot `i` holds
exactly the FIFO's optional front, and the FIFO is popped.  Part 3: a
buffer that was present is logged as completed (returned to the user) when
the admitted job is completed, whatever the device state then. -/
theorem c10_conditional_node_buffers (dev : PispbeDev) (g i cfgIdx : Nat)
    (ng : PispbeNodeGroup) (config : BeConfig)
    (hg : g < dev.node_group.length)
    (hng : dev.node_group.getD g default = ng)
    (hlen : ng.ready_queue.length = 9)
    (hcfg : (ng.ready_queue.getD CONFIG_NODE []).head? = some cfgIdx)
    (hconfig : ng.configs.getD cfgIdx default = config)
    (hstream : ng.streaming_map &&& (1 <<< i) ≠ 0)
    (hign : pispbe_ignore_buffers config i = true) :
    ((pispbe_schedule_internal
        (setGroup dev g { ng with ready_queue := ng.ready_queue.set i [] }) g).2 =
      (pispbe_schedule_internal dev g).2) ∧
    ((pispbe_schedule_internal dev g).2 = true →
      (pispbe_schedule_internal dev g).1.queued_job.buf.getD i none =
        (ng.ready_queue.getD i []).head? ∧
      ((pispbe_schedule_internal dev g).1.node_group.getD g
        default).ready_queue.getD i [] = (ng.ready_queue.getD i []).tail) ∧
    (∀ (d : PispbeDev) (b : Nat), (pispbe_schedule_internal dev g).2 = true →
      (ng.ready_queue.getD i []).head? = some b →
      (g, b, (d.node_group.getD g default).sequence) ∈
        (pispbe_isr_jobdone d
          (pispbe_schedule_internal dev g).1.queued_job).completed) := by
  have hi6 := ignore_node_ids config i hign
  have hi8 : i ≠ CONFIG_NODE := by
    rcases hi6 with h | h | h | h | h | h <;> subst h <;> decide
  have hi9 : i < 9 := by
    rcases hi6 with h | h | h | h | h | h <;> subst h <;> decide
  have hpos : nodeIds.getD i 0 = i := by
    rcases hi6 with h | h | h | h | h | h <;> subst h <;> rfl
  have hget' : (setGroup dev g
      { ng with ready_queue := ng.ready_queue.set i [] }).node_group.getD g
      default = { ng with ready_queue := ng.ready_queue.set i [] } :=
    listGetD_set_eq _ _ _ _ (by simpa using hg)
  -- on success, the collected buffer list and the full result
  have hsucc : ∀ _ : (pispbe_schedule_internal dev g).2 = true,
      ∃ bufs, pispbe_collect ng config cfgIdx nodeIds = some bufs ∧
        bufs.getD i none = (ng.ready_queue.getD i []).head? ∧
        bufs.length = 9 ∧
        pispbe_schedule_internal dev g =
          ({ setGroup dev g { ng with ready_queue := commitReady ng.ready_queue bufs } with
            queued_job := ⟨some g, bufs⟩, hw_busy := true }, true) := by
    intro hs
    rw [schedule_internal_flag, hng] at hs
    unfold scheduleFlag at hs
    rw [hcfg] at hs
    dsimp only at hs
    rcases Bool.and_eq_true_iff.mp hs with ⟨hm', hcol'⟩
    rw [hconfig] at hcol'
    rcases Option.isSome_iff_exists.mp hcol' with ⟨bufs, hcol⟩
    refine ⟨bufs, hcol, ?_, ?_, ?_⟩
    · have hent := pispbe_collect_getD ng config cfgIdx nodeIds bufs hcol i
        (by simpa [nodeIds] using hi9)
      rw [hpos] at hent
      rw [collectEntry_streaming_ignore ng config cfgIdx i hi8 hstream hign]
        at hent
      exact (Option.some.injEq _ _ ▸ hent.symm)
    · simpa [nodeIds] using pispbe_collect_length ng config cfgIdx nodeIds bufs hcol
    · have := schedule_internal_success_eq dev g cfgIdx bufs
        (by rw [hng]; exact of_decide_eq_true hm')
        (by rw [hng]; exact hcfg)
        (by rw [hng, hconfig]; exact hcol)
      rw [hng] at this
      exact this
  refine ⟨?_, ?_, ?_⟩
  · rw [schedule_internal_flag, schedule_internal_flag, hget', hng]
    exact scheduleFlag_set_empty ng i cfgIdx config hi8 hcfg hconfig hstream hign
  · intro hs
    rcases hsucc hs with ⟨bufs, hcol, hbi, hblen, hE⟩
    constructor
    · rw [hE]
      exact hbi
    · rw [hE]
      have hgset : ((dev.node_group.set g
          { ng with ready_queue := commitReady ng.ready_queue bufs }).getD g
          default) = { ng with ready_queue := commitReady ng.ready_queue bufs } :=
        listGetD_set_eq _ _ _ _ (by simpa using hg)
      show ((dev.node_group.set g _).getD g default).ready_queue.getD i [] = _
      rw [hgset]
      show (commitReady ng.ready_queue bufs).getD i [] = _
      rw [commitReady_getD ng.ready_queue bufs i (by omega) (by omega)]
      rw [hbi]
      rcases hh : (ng.ready_queue.getD i []).head? with _ | b
      · rw [List.head?_eq_none_iff.mp hh]
        rfl
      · rfl
  · intro d b hs hhead
    rcases hsucc hs with ⟨bufs, hcol, hbi, hblen, hE⟩
    rw [hE]
    exact jobdone_completes d ⟨some g, bufs⟩ g b rfl
      (mem_of_getD_some bufs i b (by rw [hbi, hhead]))

theorem c10_conditional_node_buffers_witness :
    ((pispbe_schedule_internal
        (setGroup devC10W 0
          { ngC10W with ready_queue := ngC10W.ready_queue.set OUTPUT0_NODE [] })
        0).2 = (pispbe_schedule_internal devC10W 0).2) ∧
    ((pispbe_schedule_internal devC10W 0).1.queued_job.buf.getD OUTPUT0_NODE
        none = (ngC10W.ready_queue.getD OUTPUT0_NODE []).head? ∧
      ((pispbe_schedule_internal devC10W 0).1.node_group.getD 0
        default).ready_queue.getD OUTPUT0_NODE [] =
        (ngC10W.ready_queue.getD OUTPUT0_NODE []).tail) ∧
    (0, 3, (devC10W.node_group.getD 0 default).sequence) ∈
      (pispbe_isr_jobdone devC10W
        (pispbe_schedule_internal devC10W 0).1.queued_job).completed := by
  have h := c10_conditional_node_buffers devC10W 0 OUTPUT0_NODE 0 ngC10W cfgC10W
    (by decide) (by decide) (by decide) (by decide) (by decide) (by decide)
    (by decide)
  exact ⟨h.1, h.2.1 (by decide), h.2.2 devC10W 3 (by decide) (by decide)⟩

theorem c6_sequence_amended_witness :
    ((pispbe_isr_jobdone devC1B devC1B.running_job).node_group.getD 0
        default).sequence =
      ((devC1B.node_group.getD 0 default).sequence + 1) % 2 ^ 32 ∧
    (pispbe_node_start_streaming ngC6 TDN_INPUT_NODE).sequence = 0 ∧
    (pispbe_node_stop_streaming ngC6 MAIN_INPUT_NODE).sequence = ngC6.sequence :=
  ⟨c6_sequence_amended.1 devC1B devC1B.running_job 0 (by decide) (by decide),
   c6_sequence_amended.2.1 ngC6 TDN_INPUT_NODE,
   c6_sequence_amended.2.2 ngC6 MAIN_INPUT_NODE⟩

end PispBE
